import Mathlib

/-!
Verification of the nornir-pools worker-pool scheduling engine.

Shallow embedding of `nornir_pools/task.py`, `nornir_pools/poolbase.py`
and `nornir_pools/local_machine_pool.py`.  Time values are rationals,
thread handles and delegate-pool handles are natural numbers, state is
passed explicitly, and blocking operations return an `Option` that is
`none` while the operation would still block.
-/

namespace NornirPools

/-! ## Task timing (`task.py`, class `Task`) -/

/-- The timing fields of `Task`: `task_start_time` is recorded by
`Task.__init__`, `task_end_time` starts out as `None`. -/
structure TaskTimes where
  task_start_time : ℚ
  task_end_time : Option ℚ
  deriving Repr, DecidableEq

/-- `Task.__init__`: records the current time as `task_start_time` and
leaves `task_end_time` unset (`None`). -/
def Task_init (now : ℚ) : TaskTimes :=
  { task_start_time := now, task_end_time := none }

/-- `Task.set_completion_time`: sets `task_end_time` to the current time
only if it is still `None`. -/
def set_completion_time (now : ℚ) (t : TaskTimes) : TaskTimes :=
  match t.task_end_time with
  | none => { t with task_end_time := some now }
  | some _ => t

/-! ## Progress reporting (`poolbase.py`, class `PoolBase`) -/

/-- The fields of `PoolBase` used by `TryReportActiveTaskCount`:
`_last_job_report_time`, `job_report_interval_in_seconds` (default 10.0)
and `_last_num_active_tasks` (initially 0). -/
structure ReportState where
  last_job_report_time : ℚ
  job_report_interval_in_seconds : ℚ
  last_num_active_tasks : ℕ
  deriving Repr, DecidableEq

/-- Default `job_report_interval` from `PoolBase.__init__`. -/
def default_job_report_interval : ℚ := 10

/-- `PoolBase.TryReportActiveTaskCount`: returns the new report state and
whether `PrintActiveTaskCount` was called.  `numActive` is the value of
the `num_active_tasks` property, `now` the value of `time.time()`. -/
def TryReportActiveTaskCount (now : ℚ) (numActive : ℕ) (s : ReportState) :
    ReportState × Bool :=
  if numActive < 2 ∧ s.last_num_active_tasks < 2 then
    (s, false)
  else if now - s.last_job_report_time > s.job_report_interval_in_seconds then
    ({ s with last_job_report_time := now, last_num_active_tasks := numActive },
      true)
  else
    (s, false)

/-! ## Process-exit hook registration (`LocalThreadPoolBase.TryRegisterAtExit`) -/

/-- Class-wide atexit bookkeeping: `AtExitRegisteredWaitTime` (initially 0)
and the list of wait times passed to `atexit.register` so far. -/
structure AtExitState where
  AtExitRegisteredWaitTime : ℚ
  atexit_registrations : List ℚ
  deriving Repr, DecidableEq

/-- `LocalThreadPoolBase.TryRegisterAtExit`: a no-op when the registered
wait time already is at least `wait_time`; otherwise registers an atexit
sleep of `wait_time` and records it as the new registered wait time.  The
class-wide lock makes the call atomic, so it is modelled sequentially. -/
def TryRegisterAtExit (wait_time : ℚ) (s : AtExitState) : AtExitState :=
  if s.AtExitRegisteredWaitTime ≥ wait_time then s
  else { AtExitRegisteredWaitTime := wait_time,
         atexit_registrations := s.atexit_registrations ++ [wait_time] }

/-- Class default of `LocalThreadPoolBase.WorkerCheckInterval`. -/
def defaultWorkerCheckInterval : ℚ := 1

/-- The wait time `LocalThreadPoolBase.__init__` passes to
`TryRegisterAtExit`: `self.WorkerCheckInterval * 1.25`. -/
def init_atexit_request (WorkerCheckInterval : ℚ) : ℚ :=
  WorkerCheckInterval * (5 / 4)

/-! ## Pool engine state (`poolbase.py`, class `LocalThreadPoolBase`)

Thread handles are naturals.  `qsize` is the task queue depth; a scaling
or reclamation pass runs on one thread and does not itself enqueue or
dequeue tasks, so `qsize` is constant during a pass. -/

structure PoolState where
  max_threads : ℕ
  qsize : ℕ
  threads : List ℕ
  deadthreadqueue : List (Option ℕ)
  shutdown_event : Bool
  next_thread_id : ℕ
  deriving Repr, DecidableEq

/-- `LocalThreadPoolBase.num_active_tasks`: `self.tasks.qsize()`. -/
def num_active_tasks (s : PoolState) : ℕ := s.qsize

/-- The inner loop of `remove_finished_threads` for one dead thread `t`:
`for i in range(len(self._threads) - 1, 0, -1)` scans indices
`len-1, …, 1` (index 0 is never visited) and deletes the first match
found, i.e. the last occurrence of `t` in the tail of the list. -/
def remove_one_dead_thread (t : ℕ) (threads : List ℕ) : List ℕ :=
  match threads with
  | [] => []
  | h :: tail => h :: (tail.reverse.erase t).reverse

/-- `LocalThreadPoolBase.remove_finished_threads`: drains
`deadthreadqueue` with `get_nowait` until `queue.Empty` (caught, pass) or
a `None` sentinel (break, leaving the rest of the channel); each drained
thread is removed from `self._threads` via the scan above.  Returns the
remaining channel contents and the new thread list. -/
def remove_finished_threads (deadq : List (Option ℕ)) (threads : List ℕ) :
    List (Option ℕ) × List ℕ :=
  match deadq with
  | [] => ([], threads)
  | none :: rest => (rest, threads)
  | some t :: rest => remove_finished_threads rest (remove_one_dead_thread t threads)

/-- The `while num_threads_created < num_threads_needed` loop of
`add_threads_if_needed`: each iteration checks `not self.tasks.empty()`,
spawns a worker (`add_worker_thread`, a fresh handle appended to
`self._threads`), and yields the scheduler (`time.sleep(0)`, no state
effect); if the task queue is empty it breaks.  `fuel` is the number of
iterations left, i.e. `num_threads_needed - num_threads_created`.
Returns the new thread list, the next fresh handle, and the number of
threads created. -/
def spawn_loop (qsize fuel : ℕ) (threads : List ℕ) (nid : ℕ) :
    List ℕ × ℕ × ℕ :=
  match fuel with
  | 0 => (threads, nid, 0)
  | f + 1 =>
    if qsize ≠ 0 then
      let r := spawn_loop qsize f (threads ++ [nid]) (nid + 1)
      (r.1, r.2.1, r.2.2 + 1)
    else
      (threads, nid, 0)

/-- `LocalThreadPoolBase.add_threads_if_needed`: asserts the shutdown
event is not set, reclaims dead threads, returns early when the live
count equals `self._max_threads`, otherwise computes
`num_threads_needed = min(self._max_threads, self.tasks.qsize() + 1) -
num_active_threads` (an `int`, possibly negative) and runs the spawn
loop.  Returns the new state and the number of threads created, or an
assertion failure. -/
def add_threads_if_needed (s : PoolState) : Except String (PoolState × ℕ) :=
  if s.shutdown_event then .error "AssertionError"
  else
    let drained := remove_finished_threads s.deadthreadqueue s.threads
    let threads := drained.2
    let num_active : ℕ := threads.length
    if num_active = s.max_threads then
      .ok ({ s with deadthreadqueue := drained.1, threads := threads }, 0)
    else
      let num_threads_needed : ℤ :=
        min (s.max_threads : ℤ) ((s.qsize : ℤ) + 1) - (num_active : ℤ)
      let r := spawn_loop s.qsize num_threads_needed.toNat threads s.next_thread_id
      let s1 := { s with deadthreadqueue := drained.1, threads := r.1 }
      .ok ({ s1 with next_thread_id := r.2.1 }, r.2.2)

/-- `LocalThreadPoolBase.wait_completion`: `self.tasks.join()` blocks
until every enqueued task has been processed (so the queue depth is 0
when it returns), then `self.remove_finished_threads()`. -/
def wait_completion (s : PoolState) : PoolState :=
  let drained := remove_finished_threads s.deadthreadqueue s.threads
  { s with qsize := 0, deadthreadqueue := drained.1, threads := drained.2 }

/-- Observable side effects of one `shutdown` call: whether it blocked in
`wait_completion` and whether it called `nornir_pools._remove_pool`. -/
structure ShutdownEffects where
  blocked_on_wait : Bool
  deregistered : Bool
  deriving Repr, DecidableEq

/-- `LocalThreadPoolBase.shutdown`: returns immediately when the shutdown
event is already set; otherwise runs `wait_completion`, sets the event,
deregisters the pool (`nornir_pools._remove_pool`) and clears
`self._threads`. -/
def shutdown (s : PoolState) : PoolState × ShutdownEffects :=
  if s.shutdown_event then
    (s, { blocked_on_wait := false, deregistered := false })
  else
    let s1 := wait_completion s
    ({ s1 with shutdown_event := true, threads := [] },
      { blocked_on_wait := true, deregistered := true })

/-! ## Task variants (`task.py`) -/

/-- `TaskWithEvent.wait` (src): `self.completed.wait()` — blocks until
the completion event is set and returns nothing; `none` models the call
still blocking. -/
def TaskWithEvent_wait (completed : Bool) : Option Unit :=
  if completed then some () else none

/-- `TaskWithEvent.iscompleted` (src): `self.completed.isSet()`. -/
def TaskWithEvent_iscompleted (completed : Bool) : Bool := completed

/-- The spec's tagged task outcome: {Pending, Succeeded(value), Failed(error)}. -/
inductive Outcome
  | pending
  | succeeded (v : ℤ)
  | failed (e : String)
  deriving Repr, DecidableEq

/-- State of the concrete event-based task handed out by thread pools:
the `TaskWithEvent` completion event plus the recorded outcome. -/
structure ThreadTaskState where
  completed : Bool
  outcome : Outcome
  deriving Repr, DecidableEq

/-- Modelled from the spec: the worker-loop body of the concrete thread
pool is not under src/.  Per the spec it "executes the Task's payload,
captures either the return value or any raised failure into the Task,
marks the Task's completion signal"; the failure "never crashes the
Worker" — execution itself propagates nothing, which the total return
type records. -/
def worker_execute (payload : Except String ℤ) (_t : ThreadTaskState) :
    ThreadTaskState :=
  match payload with
  | .ok v => { completed := true, outcome := .succeeded v }
  | .error e => { completed := true, outcome := .failed e }

/-- Modelled from the spec: `wait()` of the concrete thread-pool task
subclass is not under src/ (`TaskWithEvent.wait` in src only blocks on
the event).  Per the spec it "blocks on the completion signal; returns
once set; if the Task recorded a failure, re-raises it to the caller at
this point".  `none` models the call still blocking. -/
def threadTask_wait (t : ThreadTaskState) : Option (Except String Unit) :=
  match TaskWithEvent_wait t.completed with
  | none => none
  | some _ =>
    match t.outcome with
    | .failed e => some (.error e)
    | _ => some (.ok ())

/-- Modelled from the spec: `wait_return()` of the concrete thread-pool
task subclass is not under src/.  Per the spec it is "as `wait()`, but
also yields the recorded result when no failure occurred". -/
def threadTask_wait_return (t : ThreadTaskState) : Option (Except String ℤ) :=
  match TaskWithEvent_wait t.completed with
  | none => none
  | some _ =>
    match t.outcome with
    | .failed e => some (.error e)
    | .succeeded v => some (.ok v)
    | .pending => none

/-- `SerialTask` (src): stores the already-computed return value. -/
structure SerialTaskState where
  retval : ℤ
  returncode : ℤ
  deriving Repr, DecidableEq

/-- `SerialTask.__init__`: records `retval`, `returncode = 0`. -/
def SerialTask_init (retval : ℤ) : SerialTaskState :=
  { retval := retval, returncode := 0 }

/-- `SerialTask.wait_return`: `return self._retval` (never blocks). -/
def SerialTask_wait_return (t : SerialTaskState) : ℤ := t.retval

/-! ## The facade (`local_machine_pool.py`, class `LocalMachinePool`)

Delegate pools are handles (naturals); `LocalMachinePool.__init__` sets
only `_num_threads`, `is_global`, `_mtpool = None` and `_ppool = None` —
the class has no shutdown flag. -/

structure LocalMachinePoolState where
  mtpool : Option ℕ
  ppool : Option ℕ
  deriving Repr, DecidableEq

/-- `LocalMachinePool.wait_completion`: for each delegate that has been
created, calls its `wait_completion` and resets the reference to `None`.
Returns the new state and, for each delegate, whether its
`wait_completion` was invoked. -/
def LMP_wait_completion (s : LocalMachinePoolState) :
    LocalMachinePoolState × Bool × Bool :=
  ({ mtpool := none, ppool := none }, s.mtpool.isSome, s.ppool.isSome)

/-- `LocalMachinePool.shutdown`: `self.wait_completion()` and nothing
else. -/
def LMP_shutdown (s : LocalMachinePoolState) :
    LocalMachinePoolState × Bool × Bool :=
  LMP_wait_completion s

/-- The `_multithreading_pool` property: lazily obtains a delegate pool
(from the global registry or by constructing one — either way a handle,
`fresh`, not in the state) when `_mtpool is None`, else returns the
existing one. -/
def LMP_get_multithreading_pool (fresh : ℕ) (s : LocalMachinePoolState) :
    LocalMachinePoolState × ℕ :=
  match s.mtpool with
  | some p => (s, p)
  | none => ({ s with mtpool := some fresh }, fresh)

/-- `LocalMachinePool.add_task`: delegates to
`self._multithreading_pool.add_task(...)`; there is no shutdown check, so
it always succeeds and returns the delegate handle used. -/
def LMP_add_task (fresh : ℕ) (s : LocalMachinePoolState) :
    LocalMachinePoolState × ℕ :=
  LMP_get_multithreading_pool fresh s

/-- The spec-side description of one scaling pass on an unsaturated pool
with work present: reclaim dead workers, then append exactly
`max(0, min(max_workers, queue_depth + 1) - |live_workers|)` fresh
worker handles, one at a time. -/
def expected_scaling_result (s : PoolState) : PoolState × ℕ :=
  let drained := remove_finished_threads s.deadthreadqueue s.threads
  let live := drained.2
  let needed : ℤ := min (s.max_threads : ℤ) ((s.qsize : ℤ) + 1) - (live.length : ℤ)
  let n := needed.toNat
  let s1 := { s with deadthreadqueue := drained.1, threads := live ++ List.range' s.next_thread_id n }
  ({ s1 with next_thread_id := s.next_thread_id + n }, n)

/-! ## Helper lemmas -/

lemma spawn_loop_of_qsize_ne_zero (qsize : ℕ) (hq : qsize ≠ 0) :
    ∀ (fuel : ℕ) (threads : List ℕ) (nid : ℕ),
      spawn_loop qsize fuel threads nid =
        (threads ++ List.range' nid fuel, nid + fuel, fuel) := by
  intro fuel
  induction fuel with
  | zero => intro threads nid; simp [spawn_loop]
  | succ f ih =>
    intro threads nid
    have hstep : spawn_loop qsize (f + 1) threads nid =
        ((spawn_loop qsize f (threads ++ [nid]) (nid + 1)).1,
         (spawn_loop qsize f (threads ++ [nid]) (nid + 1)).2.1,
         (spawn_loop qsize f (threads ++ [nid]) (nid + 1)).2.2 + 1) := by
      simp [spawn_loop, hq]
    rw [hstep, ih (threads ++ [nid]) (nid + 1)]
    refine Prod.ext ?_ (Prod.ext ?_ rfl)
    · simp [List.range'_succ]
    · show nid + 1 + f = nid + (f + 1)
      omega

lemma TryRegisterAtExit_mono (w : ℚ) (s : AtExitState) :
    s.AtExitRegisteredWaitTime ≤ (TryRegisterAtExit w s).AtExitRegisteredWaitTime := by
  unfold TryRegisterAtExit
  split_ifs with h
  · exact le_refl _
  · exact le_of_not_ge h

lemma foldl_TryRegisterAtExit_mono (ws : List ℚ) :
    ∀ s : AtExitState,
      s.AtExitRegisteredWaitTime ≤
        (ws.foldl (fun a w => TryRegisterAtExit w a) s).AtExitRegisteredWaitTime := by
  induction ws with
  | nil => intro s; exact le_refl _
  | cons w ws ih =>
    intro s
    exact le_trans (TryRegisterAtExit_mono w s) (ih (TryRegisterAtExit w s))

lemma foldl_set_completion_invariant (start : ℚ) :
    ∀ (calls : List ℚ) (t : TaskTimes),
      (∀ c ∈ calls, start ≤ c) →
      (∀ e, t.task_end_time = some e → start ≤ e) →
      ∀ e, ((calls.foldl (fun a n => set_completion_time n a) t).task_end_time = some e) →
        start ≤ e := by
  intro calls
  induction calls with
  | nil => intro t _ ht e he; exact ht e (by simpa using he)
  | cons c cs ih =>
    intro t hcalls ht e he
    refine ih (set_completion_time c t)
      (fun x hx => hcalls x (List.mem_cons_of_mem _ hx)) ?_ e (by simpa using he)
    intro x hx
    cases hend : t.task_end_time with
    | none =>
      simp [set_completion_time, hend] at hx
      exact hx ▸ hcalls c (List.mem_cons_self c cs)
    | some y =>
      simp [set_completion_time, hend] at hx
      exact ht x (by rw [hend, hx])

/-! ## The claims -/

/-- C2: `remove_finished_threads` tolerates an empty channel (no-op) and
a `None` sentinel (ends the drain pass), but for a drained thread that is
a member of the live list the claim "exactly one matching entry is
removed (never zero)" fails: a dead thread sitting at index 0 of
`self._threads` is never removed, because the scan
`range(len(self._threads) - 1, 0, -1)` stops before index 0. -/
theorem remove_finished_threads_skips_index_zero :
    (∀ threads : List ℕ, remove_finished_threads [] threads = ([], threads)) ∧
    (∀ (rest : List (Option ℕ)) (threads : List ℕ),
      remove_finished_threads (none :: rest) threads = (rest, threads)) ∧
    ((7 : ℕ) ∈ [7] ∧ remove_finished_threads [some 7] [7] = ([], [7])) := by
  refine ⟨fun threads => ?_, fun rest threads => rfl, by decide, rfl⟩
  cases threads <;> rfl

/-- C4: a failure raised by the executed payload is captured on the task
(execution itself propagates nothing — `worker_execute` is total and
merely records the outcome and sets the completion signal), `wait()`
blocks while the completion signal is unset, and once the signal is set
`wait()` re-raises the captured failure to the calling thread. -/
theorem wait_reraises_captured_failure_after_completion :
    (∀ o : Outcome, threadTask_wait { completed := false, outcome := o } = none) ∧
    (∀ (e : String) (t : ThreadTaskState),
      worker_execute (.error e) t = { completed := true, outcome := .failed e } ∧
      threadTask_wait (worker_execute (.error e) t) = some (.error e)) :=
  ⟨fun _ => rfl, fun _ _ => ⟨rfl, rfl⟩⟩

/-- C5: for a payload that completed without failure returning `v`,
`wait_return()` blocks until completion and then returns exactly `v`; in
particular a payload returning 42 yields 42.  This holds for the
event-based task used by thread pools and for `SerialTask`. -/
theorem wait_return_yields_recorded_result :
    (∀ (v : ℤ) (t : ThreadTaskState),
      threadTask_wait_return (worker_execute (.ok v) t) = some (.ok v)) ∧
    (∀ o : Outcome, threadTask_wait_return { completed := false, outcome := o } = none) ∧
    (∀ t : ThreadTaskState, threadTask_wait_return (worker_execute (.ok 42) t) = some (.ok 42)) ∧
    (∀ v : ℤ, SerialTask_wait_return (SerialTask_init v) = v) :=
  ⟨fun _ _ => rfl, fun _ => rfl, fun _ => rfl, fun _ => rfl⟩

/-- C10: on `LocalMachinePool`, `shutdown()` is exactly
`wait_completion()`: each created delegate is waited on and its reference
reset to `None`, no shutdown flag exists to be set and no delegate
`shutdown()` is called; afterwards `add_task` succeeds by lazily
obtaining a delegate pool again. -/
theorem LMP_shutdown_is_wait_completion :
    (∀ s : LocalMachinePoolState, LMP_shutdown s = LMP_wait_completion s) ∧
    (∀ s : LocalMachinePoolState,
      (LMP_wait_completion s).1 = { mtpool := none, ppool := none } ∧
      (LMP_wait_completion s).2 = (s.mtpool.isSome, s.ppool.isSome)) ∧
    (∀ (s : LocalMachinePoolState) (fresh : ℕ),
      LMP_add_task fresh (LMP_shutdown s).1 = ({ mtpool := some fresh, ppool := none }, fresh)) :=
  ⟨fun _ => rfl, fun s => ⟨rfl, rfl⟩, fun _ _ => rfl⟩

/-- C1 (counterexample): with `max_workers = 4`, one queued task and three
live workers, work is present and the pool is not saturated, yet the
scaling pass spawns 0 threads while the claim's
`needed = min(max_workers, queue_depth + 1) - |live_workers|` is `-1` —
the pass cannot spawn "exactly needed" threads when `needed` is
negative. -/
theorem scaling_pass_needed_can_be_negative :
    (⟨4, 1, [0, 1, 2], [], false, 10⟩ : PoolState).shutdown_event = false ∧
    1 ≤ num_active_tasks ⟨4, 1, [0, 1, 2], [], false, 10⟩ ∧
    (⟨4, 1, [0, 1, 2], [], false, 10⟩ : PoolState).threads.length ≠
      (⟨4, 1, [0, 1, 2], [], false, 10⟩ : PoolState).max_threads ∧
    add_threads_if_needed ⟨4, 1, [0, 1, 2], [], false, 10⟩ =
      .ok (⟨4, 1, [0, 1, 2], [], false, 10⟩, 0) ∧
    (0 : ℤ) ≠ min ((4 : ℕ) : ℤ) (((1 : ℕ) : ℤ) + 1) - (([0, 1, 2] : List ℕ).length : ℤ) := by
  refine ⟨rfl, by decide, by decide, rfl, by decide⟩

/-- C1 (amended): whenever work is present and the pool is not saturated,
the scaling pass spawns exactly `max(0, needed)` new worker threads for
`needed = min(max_workers, queue_depth + 1) - |live_workers|`, appending
them one at a time to the live-worker list; when the live count equals
`max_workers` it spawns none. -/
theorem scaling_pass_spawns_clamped_needed :
    (∀ s : PoolState, s.shutdown_event = false → 1 ≤ s.qsize →
      (remove_finished_threads s.deadthreadqueue s.threads).2.length ≠ s.max_threads →
      add_threads_if_needed s = .ok (expected_scaling_result s) ∧
      ((expected_scaling_result s).2 : ℤ) =
        max (min (s.max_threads : ℤ) ((s.qsize : ℤ) + 1) -
          (((remove_finished_threads s.deadthreadqueue s.threads).2.length : ℕ) : ℤ)) 0) ∧
    (∀ s : PoolState, s.shutdown_event = false →
      (remove_finished_threads s.deadthreadqueue s.threads).2.length = s.max_threads →
      add_threads_if_needed s = .ok ({ s with deadthreadqueue := (remove_finished_threads s.deadthreadqueue s.threads).1, threads := (remove_finished_threads s.deadthreadqueue s.threads).2 }, 0)) := by
  constructor
  · intro s hshut hq hsat
    have hqne : s.qsize ≠ 0 := by omega
    constructor
    · simp only [add_threads_if_needed, expected_scaling_result, hshut, Bool.false_eq_true,
        if_false, if_neg hsat, spawn_loop_of_qsize_ne_zero s.qsize hqne]
    · simp only [expected_scaling_result]
      exact Int.toNat_eq_max _
  · intro s hshut hsatEq
    simp only [add_threads_if_needed, hshut, Bool.false_eq_true, if_false, hsatEq, if_pos]

/-- Witness for C1 (amended): a pool with `max_workers = 4`, five queued
tasks and no live workers spawns `min(4, 5 + 1) - 0 = 4` workers. -/
theorem scaling_pass_spawns_clamped_needed_witness :
    (⟨4, 5, [], [], false, 0⟩ : PoolState).shutdown_event = false ∧
    1 ≤ (⟨4, 5, [], [], false, 0⟩ : PoolState).qsize ∧
    (remove_finished_threads (⟨4, 5, [], [], false, 0⟩ : PoolState).deadthreadqueue
      (⟨4, 5, [], [], false, 0⟩ : PoolState).threads).2.length ≠
      (⟨4, 5, [], [], false, 0⟩ : PoolState).max_threads ∧
    add_threads_if_needed ⟨4, 5, [], [], false, 0⟩ =
      .ok (expected_scaling_result ⟨4, 5, [], [], false, 0⟩) ∧
    (expected_scaling_result ⟨4, 5, [], [], false, 0⟩).2 = 4 :=
  ⟨rfl, by decide, by decide,
    (scaling_pass_spawns_clamped_needed.1 ⟨4, 5, [], [], false, 0⟩ rfl (by decide) (by decide)).1,
    by decide⟩

/-- C3: `shutdown()` is idempotent.  A first call on a pool whose
shutdown event is unset blocks via `wait_completion`, sets the event,
deregisters the pool and clears the live-worker list; any call made once
the event is set returns the state unchanged with no blocking and no
deregistration — in particular a second call right after a first one. -/
theorem shutdown_idempotent :
    (∀ s : PoolState, s.shutdown_event = false →
      shutdown s = ({ wait_completion s with shutdown_event := true, threads := [] }, { blocked_on_wait := true, deregistered := true })) ∧
    (∀ s : PoolState, s.shutdown_event = true →
      shutdown s = (s, { blocked_on_wait := false, deregistered := false })) ∧
    (∀ s : PoolState, (shutdown s).1.shutdown_event = true) ∧
    (∀ s : PoolState, shutdown (shutdown s).1 =
      ((shutdown s).1, { blocked_on_wait := false, deregistered := false })) := by
  refine ⟨fun s hs => ?_, fun s hs => ?_, fun s => ?_, fun s => ?_⟩
  · simp [shutdown, hs]
  · simp [shutdown, hs]
  · by_cases hs : s.shutdown_event <;> simp [shutdown, hs]
  · by_cases hs : s.shutdown_event <;> simp [shutdown, hs]

/-- Witness for C3: one concrete first call followed by a second call. -/
theorem shutdown_idempotent_witness :
    (⟨2, 3, [0, 1], [some 1], false, 5⟩ : PoolState).shutdown_event = false ∧
    shutdown ⟨2, 3, [0, 1], [some 1], false, 5⟩ =
      ({ wait_completion ⟨2, 3, [0, 1], [some 1], false, 5⟩ with shutdown_event := true, threads := [] }, { blocked_on_wait := true, deregistered := true }) ∧
    shutdown (shutdown ⟨2, 3, [0, 1], [some 1], false, 5⟩).1 =
      ((shutdown ⟨2, 3, [0, 1], [some 1], false, 5⟩).1, { blocked_on_wait := false, deregistered := false }) :=
  ⟨rfl, shutdown_idempotent.1 ⟨2, 3, [0, 1], [some 1], false, 5⟩ rfl,
    shutdown_idempotent.2.2.2 ⟨2, 3, [0, 1], [some 1], false, 5⟩⟩

/-- C6: no worker is spawned while the shutdown event is set — when
shutdown has not begun, the assertion at the top of
`add_threads_if_needed` passes and the pass returns normally; when the
event is set, the pass trips the assertion instead of spawning. -/
theorem no_spawn_after_shutdown (s : PoolState) :
    (s.shutdown_event = false → ∃ r, add_threads_if_needed s = .ok r) ∧
    (s.shutdown_event = true → add_threads_if_needed s = .error "AssertionError") := by
  constructor
  · intro hs
    simp only [add_threads_if_needed, hs, Bool.false_eq_true, if_false]
    split
    · exact ⟨_, rfl⟩
    · exact ⟨_, rfl⟩
  · intro hs
    simp [add_threads_if_needed, hs]

/-- Witness for C6: both branches at concrete pools. -/
theorem no_spawn_after_shutdown_witness :
    (⟨1, 0, [], [], false, 0⟩ : PoolState).shutdown_event = false ∧
    (∃ r, add_threads_if_needed ⟨1, 0, [], [], false, 0⟩ = .ok r) ∧
    (⟨1, 0, [], [], true, 0⟩ : PoolState).shutdown_event = true ∧
    add_threads_if_needed ⟨1, 0, [], [], true, 0⟩ = .error "AssertionError" :=
  ⟨rfl, (no_spawn_after_shutdown ⟨1, 0, [], [], false, 0⟩).1 rfl, rfl,
    (no_spawn_after_shutdown ⟨1, 0, [], [], true, 0⟩).2 rfl⟩

/-- C7 (counterexample): the progress-report pass prints with only one
active task: with a current depth of 1 but a previously recorded count of
2, and 11 time-units elapsed against the default 10-unit interval, the
pass prints — the claim's "only when at least 2 active tasks" fails. -/
theorem report_prints_below_two_tasks :
    (1 : ℕ) < 2 ∧
    default_job_report_interval = 10 ∧
    (TryReportActiveTaskCount 11 1 { last_job_report_time := 0, job_report_interval_in_seconds := 10, last_num_active_tasks := 2 }).2 = true := by
  refine ⟨by decide, rfl, ?_⟩
  norm_num [TryReportActiveTaskCount]

/-- C7 (amended): `num_active_tasks` returns the current queue depth
without blocking, and the progress-report pass prints exactly when the
elapsed time strictly exceeds the report interval and either the current
or the previously recorded active-task count is at least 2; otherwise it
returns with the report state unchanged. -/
theorem report_throttling_amended :
    (∀ s : PoolState, num_active_tasks s = s.qsize) ∧
    (∀ (now : ℚ) (numActive : ℕ) (s : ReportState),
      ((TryReportActiveTaskCount now numActive s).2 = true ↔
        ((2 ≤ numActive ∨ 2 ≤ s.last_num_active_tasks) ∧
          now - s.last_job_report_time > s.job_report_interval_in_seconds)) ∧
      ((TryReportActiveTaskCount now numActive s).2 = false →
        TryReportActiveTaskCount now numActive s = (s, false))) := by
  refine ⟨fun s => rfl, fun now numActive s => ⟨?_, ?_⟩⟩
  · unfold TryReportActiveTaskCount
    split_ifs with h1 h2
    · constructor
      · intro h; simp at h
      · rintro ⟨hor, -⟩
        rcases hor with h | h <;> omega
    · constructor
      · intro _
        refine ⟨?_, h2⟩
        by_contra hc
        push_neg at hc
        exact h1 ⟨by omega, by omega⟩
      · intro _; rfl
    · constructor
      · intro h; simp at h
      · rintro ⟨-, h⟩; exact absurd h h2
  · unfold TryReportActiveTaskCount
    split_ifs with h1 h2
    · intro _; rfl
    · intro h; simp at h
    · intro _; rfl

/-- Witness for C7 (amended): an idle pool neither prints nor touches the
report state. -/
theorem report_throttling_amended_witness :
    (TryReportActiveTaskCount 0 0 { last_job_report_time := 0, job_report_interval_in_seconds := 10, last_num_active_tasks := 0 }).2 = false ∧
    TryReportActiveTaskCount 0 0 { last_job_report_time := 0, job_report_interval_in_seconds := 10, last_num_active_tasks := 0 } =
      ({ last_job_report_time := 0, job_report_interval_in_seconds := 10, last_num_active_tasks := 0 }, false) :=
  ⟨by decide, (report_throttling_amended.2 0 0 _).2 (by decide)⟩

/-- C8: a fresh task has no end time; the first call to
`set_completion_time` records the current time; a later call on a task
whose end time is set is a no-op; and along any sequence of calls whose
times are at least the construction time, a recorded end time is at
least the start time. -/
theorem end_time_set_once_and_ge_start :
    (∀ n0 : ℚ, (Task_init n0).task_end_time = none) ∧
    (∀ n0 n1 : ℚ, (set_completion_time n1 (Task_init n0)).task_end_time = some n1) ∧
    (∀ (t : TaskTimes) (e n : ℚ), t.task_end_time = some e → set_completion_time n t = t) ∧
    (∀ (n0 : ℚ) (calls : List ℚ), (∀ c ∈ calls, n0 ≤ c) →
      ∀ e : ℚ,
        ((calls.foldl (fun a n => set_completion_time n a) (Task_init n0)).task_end_time = some e) →
        (Task_init n0).task_start_time ≤ e) := by
  refine ⟨fun n0 => rfl, fun n0 n1 => rfl, fun t e n ht => ?_, fun n0 calls hcalls e he => ?_⟩
  · simp [set_completion_time, ht]
  · exact foldl_set_completion_invariant n0 calls (Task_init n0) hcalls
      (fun x hx => by simp [Task_init] at hx) e he

/-- Witness for C8: construction at time 1, completion calls at 2 then 3;
the end time stays 2 and is at least the start time. -/
theorem end_time_set_once_and_ge_start_witness :
    (∀ c ∈ ([2, 3] : List ℚ), (1 : ℚ) ≤ c) ∧
    (([2, 3] : List ℚ).foldl (fun a n => set_completion_time n a) (Task_init 1)).task_end_time = some 2 ∧
    (Task_init 1).task_start_time ≤ 2 :=
  ⟨by norm_num, by norm_num [Task_init, set_completion_time],
    end_time_set_once_and_ge_start.2.2.2 1 [2, 3] (by norm_num) 2
      (by norm_num [Task_init, set_completion_time])⟩

/-- C9: the class-wide registered atexit wait time never decreases (also
along any sequence of calls); `TryRegisterAtExit` registers a new hook
exactly when the requested wait strictly exceeds the registered one and
is a no-op otherwise, so equal wait times are never registered twice; and
each pool requests `WorkerCheckInterval * 1.25`. -/
theorem atexit_registration_monotone :
    (∀ (w : ℚ) (s : AtExitState),
      s.AtExitRegisteredWaitTime ≤ (TryRegisterAtExit w s).AtExitRegisteredWaitTime) ∧
    (∀ (ws : List ℚ) (s : AtExitState),
      s.AtExitRegisteredWaitTime ≤
        (ws.foldl (fun a w => TryRegisterAtExit w a) s).AtExitRegisteredWaitTime) ∧
    (∀ (w : ℚ) (s : AtExitState), s.AtExitRegisteredWaitTime < w →
      TryRegisterAtExit w s = { AtExitRegisteredWaitTime := w, atexit_registrations := s.atexit_registrations ++ [w] }) ∧
    (∀ (w : ℚ) (s : AtExitState), w ≤ s.AtExitRegisteredWaitTime →
      TryRegisterAtExit w s = s) ∧
    (∀ (w : ℚ) (s : AtExitState),
      TryRegisterAtExit w (TryRegisterAtExit w s) = TryRegisterAtExit w s) ∧
    (∀ i : ℚ, init_atexit_request i = i * (5 / 4)) := by
  refine ⟨TryRegisterAtExit_mono, fun ws s => foldl_TryRegisterAtExit_mono ws s,
    fun w s hw => ?_, fun w s hw => ?_, fun w s => ?_, fun i => rfl⟩
  · simp [TryRegisterAtExit, not_le.mpr hw]
  · simp [TryRegisterAtExit, hw]
  · by_cases hw : w ≤ s.AtExitRegisteredWaitTime
    · simp [TryRegisterAtExit, hw]
    · have h1 : TryRegisterAtExit w s = { AtExitRegisteredWaitTime := w, atexit_registrations := s.atexit_registrations ++ [w] } := by
        simp [TryRegisterAtExit, hw]
      rw [h1]
      simp [TryRegisterAtExit]

/-- Witness for C9: the first pool registers its `1 * 1.25` wait. -/
theorem atexit_registration_monotone_witness :
    (⟨0, []⟩ : AtExitState).AtExitRegisteredWaitTime < init_atexit_request defaultWorkerCheckInterval ∧
    TryRegisterAtExit (init_atexit_request defaultWorkerCheckInterval) ⟨0, []⟩ =
      { AtExitRegisteredWaitTime := init_atexit_request defaultWorkerCheckInterval, atexit_registrations := [init_atexit_request defaultWorkerCheckInterval] } :=
  ⟨by norm_num [init_atexit_request, defaultWorkerCheckInterval],
    atexit_registration_monotone.2.2.1 (init_atexit_request defaultWorkerCheckInterval) ⟨0, []⟩
      (by norm_num [init_atexit_request, defaultWorkerCheckInterval])⟩

end NornirPools
